import Mathlib

/-!
Shallow embedding of the hand-position solver of `src/MercuryGestures/Hand.cpp`
(MercuryGestureEngine).  Machine doubles are modelled as exact rationals (ℚ),
`cv::Point` as a pair of integers, and `cv::Mat` single-channel masks as a
function from pixel coordinates to natural values together with the frame
dimensions.  Double-to-int conversions use C++ truncation toward zero.
Drawing / debug side effects of the source are omitted: they never feed back
into the tracked state.
-/

namespace Mercury

/-- A 2D integer point, as `cv::Point`. -/
structure Pt where
  x : Int
  y : Int
deriving DecidableEq, Repr

/-- A single-channel mask (`cv::Mat`): frame dimensions and the pixel values.
Pixels are addressed as `val x y`; only coordinates `0 ≤ x < cols`,
`0 ≤ y < rows` belong to the frame. -/
structure Mask where
  rows : Nat
  cols : Nat
  val : Int → Int → Nat

/-- Vertical-position category of a blob (`LOW`/`MEDIUM`/`HIGH`); the source
also branches on a fall-through case, kept here as `OTHER`. -/
inductive BlobType where
  | LOW | MEDIUM | HIGH | OTHER
deriving DecidableEq, Repr

/-- Quality-condition tag passed to `setEstimate`; the source tests only
`ONLY_HEAD`, other values are grouped as `NORMAL`. -/
inductive Condition where
  | ONLY_HEAD | NORMAL
deriving DecidableEq, Repr

/-- Directional bias modes of the local search. -/
inductive SearchMode where
  | FREE_SEARCH | SEARCH_UP | SEARCH_DOWN | SEARCH_LEFT | SEARCH_RIGHT
deriving DecidableEq, Repr

/-- Blob record: bounding extreme points and the vertical category
(fields of `BlobInformation` used by `Hand.cpp`). -/
structure BlobInformation where
  type : BlobType
  left : Pt
  right : Pt
  top : Pt
  bottom : Pt
deriving DecidableEq, Repr

/-- The mutable per-hand state (fields of class `Hand` used by `Hand.cpp`).
The circular history buffers are modelled as total functions from the index. -/
structure Hand where
  position : Pt
  positionHistory : Int → Pt
  positionIndex : Int
  blobEstimate : Pt
  blobHistory : Int → BlobInformation
  blobIndex : Int
  estimateUpdated : Bool
  intersecting : Bool
  ignoreIntersect : Bool
  leftHand : Bool
  historySize : Int
  cmInPixels : ℚ
  maxVelocity : ℚ
  fps : ℚ
  faceCoverageThreshold : Int

/-- Truncation toward zero, the C++ double-to-int conversion. -/
def truncQ (q : ℚ) : Int := if 0 ≤ q then ⌊q⌋ else ⌈q⌉

/-- History is a deck, next index: `(index + 1) % historySize`. -/
def getNextIndex (s : Hand) (index : Int) : Int :=
  (index + 1) % s.historySize

/-- History is a deck, previous index:
`(index - 1) < 0 ? index - 1 + historySize : index - 1`. -/
def getPreviousIndex (s : Hand) (index : Int) : Int :=
  if index - 1 < 0 then index - 1 + s.historySize else index - 1

/-- Modelled from the spec: the OpenCV primitives `cv::circle` (filled),
`cv::bitwise_and` and `cv::sum` used by `Hand::getCoverage` are external, and
the spec describes the neighbourhood as the pixels within a circular
neighbourhood of the given radius.  `discSum` is the sum of mask values over
the pixels of the frame lying in the closed disc of the given radius around
`c` (the bitwise AND of a byte with 255 leaves it unchanged). -/
def discSum (m : Mask) (c : Pt) (radius : Int) : Nat :=
  ∑ y in Finset.range m.rows, ∑ x in Finset.range m.cols,
    if ((x : Int) - c.x) * ((x : Int) - c.x) + ((y : Int) - c.y) * ((y : Int) - c.y)
        ≤ radius * radius
    then m.val (x : Int) (y : Int) else 0

/-- The function `Hand::getCoverage`: circle-mask sum divided by
`radius*radius*3.1415*255.0`. -/
def getCoverage (m : Mask) (pos : Pt) (radius : Int) : ℚ :=
  (discSum m pos radius : ℚ) / (((radius * radius : Int) : ℚ) * (31415 / 10000 : ℚ) * (255 : ℚ))

/-- Modelled from the spec: the helpers `getSearchSpace` / `toSearchSpace` /
`fromSearchSpace` used by `Hand::getPointQuality` are not in `src/`; the spec
describes the search window as a coordinate-translated sub-window of size
`2 × radius` around the point used only to avoid full-frame scans, so the
translation is modelled as the identity (whole-frame window), under which
`Hand::getPointQuality` is the coverage of the point on the full mask, with a
default radius of `5 * cmInPixels` (as an int) when called with radius `0`. -/
def getPointQuality (s : Hand) (m : Mask) (point : Pt) (radius : Int) : ℚ :=
  getCoverage m point (if radius = 0 then truncQ (5 * s.cmInPixels) else radius)

/-- Key under which a point is stored in the visited set of `lookAround`:
`x * 1000 + y`. -/
def keyOf (p : Pt) : Int := p.x * 1000 + p.y

/-- The candidate offsets probed by one `lookAround` iteration, in source
order for each search mode. -/
def offsets (mode : SearchMode) (s : Int) : List (Int × Int) :=
  match mode with
  | SearchMode.SEARCH_RIGHT => [(0, s), (0, -s), (-s, s), (-s, -s), (-s, 0)]
  | SearchMode.SEARCH_LEFT  => [(0, s), (0, -s), (s, s), (s, -s), (s, 0)]
  | SearchMode.SEARCH_UP    => [(-s, 0), (s, 0), (s, -s), (-s, -s), (0, -s)]
  | SearchMode.SEARCH_DOWN  => [(-s, 0), (s, 0), (s, s), (-s, s), (0, s)]
  | SearchMode.FREE_SEARCH  =>
      [(s, s), (s, -s), (s, 0), (-s, s), (-s, -s), (-s, 0), (0, s), (0, -s)]

/-- The first candidate offset of a mode (`newPositions[0]`). -/
def firstOff (mode : SearchMode) (s : Int) : Int × Int :=
  match mode with
  | SearchMode.SEARCH_RIGHT => (0, s)
  | SearchMode.SEARCH_LEFT  => (0, s)
  | SearchMode.SEARCH_UP    => (-s, 0)
  | SearchMode.SEARCH_DOWN  => (-s, 0)
  | SearchMode.FREE_SEARCH  => (s, s)

/-- Candidate positions of one iteration (`shiftPosition` applied to every
offset of the mode, in source order). -/
def candPts (mode : SearchMode) (step : Int) (base : Pt) : List Pt :=
  (offsets mode step).map fun d => ⟨base.x + d.1, base.y + d.2⟩

/-- The selection loop of `lookAround`: running through the candidates in
order, keep the candidate with the strictly greatest coverage among those
whose key is not in the visited set (`newMax` / `maxIndex` accumulation). -/
def laSelGo (m : Mask) (radius : Int) (visited : Finset Int) :
    ℚ × Pt → List Pt → ℚ × Pt
  | acc, [] => acc
  | acc, p :: ps =>
      laSelGo m radius visited
        (if acc.1 < getCoverage m p radius ∧ keyOf p ∉ visited
         then (getCoverage m p radius, p) else acc) ps

/-- Candidate selection of one `lookAround` iteration, started at
`newMax = 0`, `maxIndex = 0` as in the source. -/
def laSel (m : Mask) (radius : Int) (visited : Finset Int) (ps : List Pt) : ℚ × Pt :=
  laSelGo m radius visited (0, ps.headD ⟨0, 0⟩) ps

/-- Loop state of `lookAround`: current best position and value, visited-key
set, and whether the early `break` was taken. -/
structure LAState where
  maxPos : Pt
  maxValue : ℚ
  visited : Finset Int
  stopped : Bool

/-- One iteration of the `lookAround` loop: select the best unvisited
candidate; if its value is `≥ maxValue`, move there and record it visited,
otherwise `break`. -/
def laStep (m : Mask) (radius step : Int) (mode : SearchMode) (st : LAState) : LAState :=
  if st.stopped then st
  else
    let sel := laSel m radius st.visited (candPts mode step st.maxPos)
    if st.maxValue ≤ sel.1 then
      ⟨sel.2, sel.1, insert (keyOf sel.2) st.visited, false⟩
    else
      { st with stopped := true }

/-- Initial `lookAround` state: start point, its coverage, empty visited set. -/
def laInit (m : Mask) (start : Pt) (radius : Int) : LAState :=
  ⟨start, getCoverage m start radius, ∅, false⟩

/-- The `lookAround` loop state after `k` iterations. -/
def laIter (m : Mask) (start : Pt) (step radius : Int) (mode : SearchMode) (k : Nat) : LAState :=
  (laStep m radius step mode)^[k] (laInit m start radius)

/-- Modelled from the spec: the search-window helpers `getSearchSpace` /
`toSearchSpace` / `fromSearchSpace` used by `Hand::lookAround` are not in
`src/`, so the coordinate translation into the window is the identity
(whole-frame window).  With that, this is `Hand::lookAround`, the bounded
greedy hill climb over coverage.  The drawing-only `colorBase` parameter of
the source is omitted. -/
def lookAround (start : Pt) (m : Mask) (maxIterations : Nat) (stepSize radius : Int)
    (mode : SearchMode) : Pt :=
  (laIter m start stepSize radius mode maxIterations).maxPos

/-- The function `Hand::improveByCoverage`: refine `position` by a `lookAround` with step 3
and radius `5 * cmInPixels` (the drawing-only `colorBase` argument is
omitted). -/
def improveByCoverage (s : Hand) (skinMask : Mask) (searchMode : SearchMode)
    (maxIterations : Nat) : Hand :=
  { s with position :=
      (lookAround s.position skinMask maxIterations 3 (truncQ (5 * s.cmInPixels)) searchMode) }

/-- Squared Euclidean distance between two points (`dx*dx + dy*dy`). -/
def distSq (a b : Pt) : Int :=
  (a.x - b.x) * (a.x - b.x) + (a.y - b.y) * (a.y - b.y)

/-- Modelled from the spec: `getDistance` is not in `src/`; the spec calls it
the Euclidean pixel distance.  `distGtQ dSq q` decides `√dSq > q` exactly for
`dSq ≥ 0`, staying inside ℚ: true when `q < 0`, else when `q * q < dSq`. -/
def distGtQ (dSq : Int) (q : ℚ) : Bool :=
  decide (q < 0) || decide (q * q < (dSq : ℚ))

/-- Modelled from the spec: decides `max 1 (√dSq) < bound` exactly for integer
`dSq ≥ 0` (the clamped distance comparison of `handleIntersection`), staying
inside ℤ: the bound must exceed 1 and the squared distance must be `≤ 1` or
below the squared bound. -/
def clampDistLt (dSq : Int) (bound : Int) : Bool :=
  decide (1 < bound) && (decide (dSq ≤ 1) || decide (dSq < bound * bound))

/-- The function `Hand::improveByAreaSearch`: if the displacement from the current position
exceeds `2 * maxVelocity * cmInPixels / fps`, or no blob estimate was accepted
this frame, and the reference point's quality exceeds 0.2, run a FREE_SEARCH
`lookAround` (10 iterations, step 4, radius `8.5 * cmInPixels`) from the
reference and adopt its result; return whether a search was performed. -/
def improveByAreaSearch (s : Hand) (skinMask : Mask) (pos : Pt) : Hand × Bool :=
  if distGtQ (distSq pos s.position) (2 * s.maxVelocity * s.cmInPixels / s.fps)
      || !s.estimateUpdated then
    if (1 / 5 : ℚ) < getPointQuality s skinMask pos 0 then
      ({ s with position :=
           (lookAround pos skinMask 10 4 (truncQ ((85 / 10 : ℚ) * s.cmInPixels))
             SearchMode.FREE_SEARCH) }, true)
    else (s, false)
  else (s, false)

/-- The pure linear extrapolation of `getPredictedPosition`: last history
point plus the last displacement. -/
def predLinear (s : Hand) : Pt :=
  let p1 := s.positionIndex
  let p2 := getPreviousIndex s p1
  let n1 := s.positionHistory p1
  let n2 := s.positionHistory p2
  ⟨n1.x + (n1.x - n2.x), n1.y + (n1.y - n2.y)⟩

/-- The velocity-averaged extrapolation of `getPredictedPosition`: last
history point plus the mean of the last two displacements (C++ integer
division, truncation toward zero). -/
def predVelocity (s : Hand) : Pt :=
  let p1 := s.positionIndex
  let p2 := getPreviousIndex s p1
  let p3 := getPreviousIndex s p2
  let n1 := s.positionHistory p1
  let n2 := s.positionHistory p2
  let n3 := s.positionHistory p3
  ⟨n1.x + Int.tdiv ((n1.x - n2.x) + (n2.x - n3.x)) 2,
   n1.y + Int.tdiv ((n1.y - n2.y) + (n2.y - n3.y)) 2⟩

/-- The function `Hand::getPredictedPosition`: evaluate the quality of both extrapolations,
prefer the velocity-averaged one when its quality is strictly higher, and
return the preferred point when the quality of the *linear* point exceeds 0.2
(this is what the source tests), else the sentinel `(0,0)`. -/
def getPredictedPosition (s : Hand) (skinMask : Mask) : Pt :=
  if (1 / 5 : ℚ) < getPointQuality s skinMask (predLinear s) 0 then
    (if getPointQuality s skinMask (predLinear s) 0
        < getPointQuality s skinMask (predVelocity s) 0
     then predVelocity s else predLinear s)
  else ⟨0, 0⟩

/-- The function `Hand::setEstimate`: possibly mark the hand exempt from intersection
handling, reject the estimate when only a head-like blob is visible and the
hand was not previously below the face threshold, otherwise record the
estimate and the blob. -/
def setEstimate (s : Hand) (estimate : Pt) (blob : BlobInformation)
    (ignoreIntersection : Bool) (condition : Condition) : Hand :=
  let s1 := if blob.type = BlobType.HIGH ∨ ignoreIntersection = true
            then { s with ignoreIntersect := true } else s
  if condition = Condition.ONLY_HEAD
      ∧ (s1.position.y = 0 ∨ s1.faceCoverageThreshold < s1.position.y) then
    s1
  else
    { s1 with
      blobEstimate := estimate,
      blobIndex := getNextIndex s1 s1.blobIndex,
      blobHistory := Function.update s1.blobHistory (getNextIndex s1 s1.blobIndex) blob,
      estimateUpdated := true }

/-- The history slot indices walked backward from `positionIndex`. -/
def histIdx (s : Hand) : Nat → Int
  | 0 => s.positionIndex
  | n + 1 => getPreviousIndex s (histIdx s n)

/-- The last `n` history points, most recent first. -/
def lastPts (s : Hand) (n : Nat) : List Pt :=
  (List.range n).map fun i => s.positionHistory (histIdx s i)

/-- The function `Hand::improveUsingHistory`: return unchanged when any of the last 5
history slots is the sentinel; otherwise blend `position` toward the mean of
the last 5 points by a tier chosen from the motion coverage at `position`
(radius 30) in the movement map.  The `skinMask` parameter is unused, as in
the source. -/
def improveUsingHistory (s : Hand) (skinMask movementMap : Mask) : Hand :=
  let pts := lastPts s 5
  if pts.any (fun p => p.x == 0 && p.y == 0) then s
  else
    let avgX : ℚ := (((pts.map fun p => p.x).sum : Int) : ℚ) / 5
    let avgY : ℚ := (((pts.map fun p => p.y).sum : Int) : ℚ) / 5
    let movementCoverage := getPointQuality s movementMap s.position 30
    if movementCoverage < (1 / 1000 : ℚ) then
      { s with position :=
          ⟨truncQ ((95 / 100 : ℚ) * avgX + (5 / 100 : ℚ) * (s.position.x : ℚ)),
           truncQ ((95 / 100 : ℚ) * avgY + (5 / 100 : ℚ) * (s.position.y : ℚ))⟩ }
    else if movementCoverage < (5 / 100 : ℚ) then
      { s with position :=
          ⟨truncQ ((8 / 10 : ℚ) * avgX + (2 / 10 : ℚ) * (s.position.x : ℚ)),
           truncQ ((8 / 10 : ℚ) * avgY + (2 / 10 : ℚ) * (s.position.y : ℚ))⟩ }
    else if movementCoverage < (2 / 10 : ℚ) then
      { s with position :=
          ⟨truncQ ((5 / 10 : ℚ) * avgX + (5 / 10 : ℚ) * (s.position.x : ℚ)),
           truncQ ((5 / 10 : ℚ) * avgY + (5 / 10 : ℚ) * (s.position.y : ℚ))⟩ }
    else s

/-- The function `Hand::handleIntersection`: when both positions are non-sentinel, compare
the clamped distance `max 1 (√dSq)` against `int(8 * cmInPixels)`: below it,
set `intersecting` and run the biased 20-iteration search; below twice it, run
the gentler 5-iteration biased search; then force `intersecting := false` when
`ignoreIntersect` was set, and clear `ignoreIntersect`.  When either position
is the sentinel, nothing happens. -/
def handleIntersection (s : Hand) (otherHandPosition : Pt) (skinMask : Mask) : Hand :=
  if s.position.x ≠ 0 ∧ s.position.y ≠ 0
      ∧ otherHandPosition.x ≠ 0 ∧ otherHandPosition.y ≠ 0 then
    let s0 := { s with intersecting := false }
    let minimalDistance := truncQ (8 * s.cmInPixels)
    let dSq := distSq s.position otherHandPosition
    let s1 :=
      if clampDistLt dSq minimalDistance then
        improveByCoverage { s0 with intersecting := true } skinMask
          (if s.leftHand then SearchMode.SEARCH_LEFT else SearchMode.SEARCH_RIGHT) 20
      else if clampDistLt dSq (2 * minimalDistance) then
        improveByCoverage s0 skinMask
          (if s.leftHand then SearchMode.SEARCH_LEFT else SearchMode.SEARCH_RIGHT) 5
      else s0
    let s2 := if s1.ignoreIntersect then { s1 with intersecting := false } else s1
    { s2 with ignoreIntersect := false }
  else s

/-- The function `Hand::getSearchModeFromBlobs`: pick the search mode from the first blob
whose bounding box contains `position`. -/
def getSearchModeFromBlobs (s : Hand) : List BlobInformation → SearchMode
  | [] => SearchMode.FREE_SEARCH
  | b :: rest =>
      if b.left.x ≤ s.position.x ∧ s.position.x ≤ b.right.x
          ∧ b.top.y ≤ s.position.y ∧ s.position.y ≤ b.bottom.y then
        if ((b.bottom.y - b.top.y : Int) : ℚ) < 15 * s.cmInPixels then
          SearchMode.FREE_SEARCH
        else
          match b.type with
          | BlobType.LOW => SearchMode.SEARCH_DOWN
          | BlobType.MEDIUM =>
              if 40 * s.cmInPixels < ((b.bottom.y - b.top.y : Int) : ℚ)
              then SearchMode.SEARCH_DOWN else SearchMode.FREE_SEARCH
          | BlobType.HIGH => SearchMode.SEARCH_UP
          | BlobType.OTHER => SearchMode.FREE_SEARCH
      else getSearchModeFromBlobs s rest

/-- The function `Hand::updateLastPoint`: backfill the second-most-recent history slot with
the midpoint of the newest and the third-most-recent slot, unless the latter
is still the sentinel. -/
def updateLastPoint (s : Hand) : Hand :=
  let p0 := s.positionIndex
  let p1 := getPreviousIndex s p0
  let p2 := getPreviousIndex s p1
  if (s.positionHistory p2).x = 0 ∧ (s.positionHistory p2).y = 0 then s
  else
    { s with positionHistory :=
        (Function.update s.positionHistory p1
          ⟨truncQ ((5 / 10 : ℚ) * (((s.positionHistory p0).x + (s.positionHistory p2).x : Int) : ℚ)),
           truncQ ((5 / 10 : ℚ) * (((s.positionHistory p0).y + (s.positionHistory p2).y : Int) : ℚ))⟩) }

/-- The estimate-fusion stage of `Hand::solve`: adopt the blob estimate when
one was accepted this frame. -/
def solveEstimate (s : Hand) : Hand :=
  if s.estimateUpdated then { s with position := s.blobEstimate } else s

/-- The estimate-fusion and recovery stages of `Hand::solve`: fuse the
estimate, then, when the last stored position is non-sentinel and the hand is
not intersecting, run the area search from it, falling back to the predicted
position when the area search was skipped. -/
def solveRecovery (s : Hand) (skinMask : Mask) : Hand :=
  let s1 := solveEstimate s
  let lastPosition := s1.positionHistory s1.positionIndex
  if lastPosition.x ≠ 0 ∧ lastPosition.y ≠ 0 ∧ s1.intersecting = false then
    let r := improveByAreaSearch s1 skinMask lastPosition
    if r.2 then r.1
    else
      let predictedPoint := getPredictedPosition r.1 skinMask
      if predictedPoint.x ≠ 0 ∧ predictedPoint.y ≠ 0 then
        (improveByAreaSearch r.1 skinMask predictedPoint).1
      else r.1
  else s1

/-- The function `Hand::solve`: recovery stages, then, when the position is initialized in
both coordinates, coverage refinement, history smoothing, history push and
spline backfill; finally reset `estimateUpdated`. -/
def solve (s : Hand) (skinMask : Mask) (blobs : List BlobInformation)
    (movementMap : Mask) : Hand :=
  let s2 := solveRecovery s skinMask
  let s3 :=
    if s2.position.x ≠ 0 ∧ s2.position.y ≠ 0 then
      let s2a := improveByCoverage s2 skinMask (getSearchModeFromBlobs s2 blobs) 5
      let s2b := improveUsingHistory s2a skinMask movementMap
      let s2c :=
        { s2b with
          positionIndex := getNextIndex s2b s2b.positionIndex,
          positionHistory :=
            (Function.update s2b.positionHistory (getNextIndex s2b s2b.positionIndex)
              s2b.position) }
      updateLastPoint s2c
    else s2
  { s3 with estimateUpdated := false }

/-! ### Verification infrastructure and concrete instances -/

/-- Invariant of the `lookAround` loop used for coverage monotonicity: the
initial coverage is below the running maximum, which is below the coverage of
the current position. -/
def laGood (m : Mask) (radius : Int) (v0 : ℚ) (st : LAState) : Prop :=
  v0 ≤ st.maxValue ∧ st.maxValue ≤ getCoverage m st.maxPos radius

/-- Invariant of the `lookAround` loop used for the visited-set analysis:
the running maximum is nonnegative, and while it is zero every visited key
lies on the ray behind the current position along the first candidate
offset `d`. -/
def laChain (d : Int × Int) (st : LAState) : Prop :=
  0 ≤ st.maxValue ∧
    (st.maxValue ≤ 0 → ∀ z ∈ st.visited, ∃ j : Nat,
      z = keyOf ⟨st.maxPos.x - (j : Int) * d.1, st.maxPos.y - (j : Int) * d.2⟩)

/-- An all-zero square mask. -/
def zeroMask (n : Nat) : Mask := ⟨n, n, fun _ _ => 0⟩

/-- A 3×3 mask entirely filled with 255. -/
def allOn3 : Mask := ⟨3, 3, fun _ _ => 255⟩

/-- A 13×13 mask entirely filled with 255. -/
def allOn13 : Mask := ⟨13, 13, fun _ _ => 255⟩

/-- A trivial blob record. -/
def blob0 : BlobInformation :=
  ⟨BlobType.LOW, ⟨0, 0⟩, ⟨0, 0⟩, ⟨0, 0⟩, ⟨0, 0⟩⟩

/-- A HIGH blob record. -/
def blob5 : BlobInformation :=
  ⟨BlobType.HIGH, ⟨0, 0⟩, ⟨0, 0⟩, ⟨0, 0⟩, ⟨0, 0⟩⟩

/-- A 13×13 mask that is on exactly at the three pixels `(9,10)`, `(10,9)`,
`(10,11)` — the radius-1 disc neighbours of `(10,10)` other than `(11,10)`. -/
def c1Mask : Mask :=
  ⟨13, 13, fun x y =>
    if (x = 9 ∧ y = 10) ∨ (x = 10 ∧ y = 9) ∨ (x = 10 ∧ y = 11) then 255 else 0⟩

/-- Concrete hand state: history runs `(10,10) ← (9,10) ← (10,10)` at indices
`0, 9, 8`, so the two displacements are `(1,0)` and `(-1,0)`; `cmInPixels`
is `1/5`, giving quality radius 1. -/
def c1Hand : Hand where
  position := ⟨0, 0⟩
  positionHistory := fun i =>
    if i = 0 then ⟨10, 10⟩ else if i = 9 then ⟨9, 10⟩ else if i = 8 then ⟨10, 10⟩ else ⟨0, 0⟩
  positionIndex := 0
  blobEstimate := ⟨0, 0⟩
  blobHistory := fun _ => blob0
  blobIndex := 0
  estimateUpdated := false
  intersecting := false
  ignoreIntersect := false
  leftHand := true
  historySize := 10
  cmInPixels := 1 / 5
  maxVelocity := 3
  fps := 25
  faceCoverageThreshold := 50

/-- Hand state for the smoothing scenario: at `(100,100)` with the last five
history slots (indices 0–4) all `(100,100)`. -/
def w6Hand : Hand :=
  { c1Hand with
    position := ⟨100, 100⟩
    positionHistory := fun i => if 0 ≤ i ∧ i ≤ 4 then ⟨100, 100⟩ else ⟨0, 0⟩
    positionIndex := 4 }

/-- Hand state at `(10,10)` with `cmInPixels = 11/10`, so that
`8 * cmInPixels = 8.8` truncates to the pixel threshold 8. -/
def w7Hand : Hand :=
  { c1Hand with position := ⟨10, 10⟩, cmInPixels := 11 / 10 }

/-- The other hand's position for the intersection instances: at squared
distance 73 from `(10,10)` (distance ≈ 8.544, between 8 and 8.8). -/
def w7Other : Pt := ⟨13, 18⟩

/-- Hand state with sentinel position but `ignoreIntersect` set. -/
def c8Hand : Hand := { c1Hand with ignoreIntersect := true }

/-- Hand state whose position has a zero x-coordinate and an all-sentinel
history. -/
def c10Hand : Hand :=
  { c1Hand with position := ⟨0, 7⟩, positionHistory := fun _ => ⟨0, 0⟩ }

/-! ### Helper lemmas -/

theorem getCoverage_nonneg (m : Mask) (pos : Pt) (radius : Int) :
    0 ≤ getCoverage m pos radius := by
  unfold getCoverage
  apply div_nonneg (Nat.cast_nonneg _)
  have h : (0 : ℚ) ≤ ((radius * radius : Int) : ℚ) := by
    exact_mod_cast mul_self_nonneg radius
  have h2 : (0 : ℚ) ≤ (31415 / 10000 : ℚ) := by norm_num
  have h3 : (0 : ℚ) ≤ (255 : ℚ) := by norm_num
  exact mul_nonneg (mul_nonneg h h2) h3

theorem laSelGo_fst_le (m : Mask) (radius : Int) (visited : Finset Int) (ps : List Pt) :
    ∀ acc : ℚ × Pt, acc.1 ≤ getCoverage m acc.2 radius →
      (laSelGo m radius visited acc ps).1 ≤
        getCoverage m (laSelGo m radius visited acc ps).2 radius := by
  induction ps with
  | nil => intro acc h; exact h
  | cons p ps ih =>
      intro acc h
      simp only [laSelGo]
      by_cases hc : acc.1 < getCoverage m p radius ∧ keyOf p ∉ visited
      · rw [if_pos hc]; exact ih _ le_rfl
      · rw [if_neg hc]; exact ih acc h

theorem laSelGo_cases (m : Mask) (radius : Int) (visited : Finset Int) (ps : List Pt) :
    ∀ acc : ℚ × Pt, 0 ≤ acc.1 →
      laSelGo m radius visited acc ps = acc ∨
        (0 < (laSelGo m radius visited acc ps).1 ∧
          keyOf (laSelGo m radius visited acc ps).2 ∉ visited) := by
  induction ps with
  | nil => intro acc _; exact Or.inl rfl
  | cons p ps ih =>
      intro acc h
      simp only [laSelGo]
      by_cases hc : acc.1 < getCoverage m p radius ∧ keyOf p ∉ visited
      · rw [if_pos hc]
        rcases ih (getCoverage m p radius, p) (le_of_lt (lt_of_le_of_lt h hc.1)) with h1 | h1
        · rw [h1]; exact Or.inr ⟨lt_of_le_of_lt h hc.1, hc.2⟩
        · exact Or.inr h1
      · rw [if_neg hc]; exact ih acc h

theorem laSel_fst_le (m : Mask) (radius : Int) (visited : Finset Int) (ps : List Pt) :
    (laSel m radius visited ps).1 ≤ getCoverage m (laSel m radius visited ps).2 radius :=
  laSelGo_fst_le m radius visited ps _ (getCoverage_nonneg m _ radius)

theorem laSel_cases (m : Mask) (radius : Int) (visited : Finset Int) (ps : List Pt) :
    laSel m radius visited ps = (0, ps.headD ⟨0, 0⟩) ∨
      (0 < (laSel m radius visited ps).1 ∧
        keyOf (laSel m radius visited ps).2 ∉ visited) :=
  laSelGo_cases m radius visited ps _ le_rfl

theorem laIter_succ (m : Mask) (start : Pt) (step radius : Int) (mode : SearchMode) (k : Nat) :
    laIter m start step radius mode (k + 1) =
      laStep m radius step mode (laIter m start step radius mode k) :=
  Function.iterate_succ_apply' _ _ _

theorem laStep_good (m : Mask) (radius step : Int) (mode : SearchMode) (v0 : ℚ)
    (st : LAState) (h : laGood m radius v0 st) :
    laGood m radius v0 (laStep m radius step mode st) := by
  unfold laStep
  by_cases hst : st.stopped = true
  · rw [if_pos hst]; exact h
  · rw [if_neg hst]
    by_cases hm : st.maxValue ≤ (laSel m radius st.visited (candPts mode step st.maxPos)).1
    · rw [if_pos hm]
      exact ⟨h.1.trans hm, laSel_fst_le m radius st.visited (candPts mode step st.maxPos)⟩
    · rw [if_neg hm]; exact h

theorem laIter_good (m : Mask) (start : Pt) (step radius : Int) (mode : SearchMode) :
    ∀ k, laGood m radius (getCoverage m start radius) (laIter m start step radius mode k) := by
  intro k
  induction k with
  | zero => exact ⟨le_rfl, le_rfl⟩
  | succ k ih =>
      rw [laIter_succ]
      exact laStep_good m radius step mode _ _ ih

theorem candPts_headD (mode : SearchMode) (step : Int) (p : Pt) :
    (candPts mode step p).headD ⟨0, 0⟩ =
      ⟨p.x + (firstOff mode step).1, p.y + (firstOff mode step).2⟩ := by
  cases mode <;> rfl

theorem firstOff_key (mode : SearchMode) (s : Int) (hs : s ≠ 0) :
    1000 * (firstOff mode s).1 + (firstOff mode s).2 ≠ 0 := by
  cases mode <;> simp only [firstOff] <;> omega

theorem laStep_chain (m : Mask) (radius step : Int) (mode : SearchMode)
    (st : LAState) (h : laChain (firstOff mode step) st) :
    laChain (firstOff mode step) (laStep m radius step mode st) := by
  unfold laStep
  by_cases hst : st.stopped = true
  · rw [if_pos hst]; exact h
  · rw [if_neg hst]
    rcases laSel_cases m radius st.visited (candPts mode step st.maxPos) with hsel | hsel
    · by_cases hm : st.maxValue ≤ (laSel m radius st.visited (candPts mode step st.maxPos)).1
      · rw [if_pos hm]
        have hsel1 : (laSel m radius st.visited (candPts mode step st.maxPos)).1 = 0 := by
          rw [hsel]
        have hsel2 : (laSel m radius st.visited (candPts mode step st.maxPos)).2 =
            ⟨st.maxPos.x + (firstOff mode step).1, st.maxPos.y + (firstOff mode step).2⟩ := by
          rw [hsel, candPts_headD]
        have hmv : st.maxValue = 0 := le_antisymm (hsel1 ▸ hm) h.1
        refine ⟨hsel1 ▸ le_rfl, fun _ z hz => ?_⟩
        rcases Finset.mem_insert.1 hz with hz | hz
        · refine ⟨0, ?_⟩
          rw [hz, hsel2]
          simp
        · obtain ⟨j, hj⟩ := h.2 hmv.le z hz
          refine ⟨j + 1, ?_⟩
          rw [hj, hsel2]
          simp only [keyOf]
          push_cast
          ring
      · rw [if_neg hm]; exact h
    · by_cases hm : st.maxValue ≤ (laSel m radius st.visited (candPts mode step st.maxPos)).1
      · rw [if_pos hm]
        refine ⟨le_of_lt hsel.1, fun hle => ?_⟩
        exact absurd (lt_of_lt_of_le hsel.1 hle) (lt_irrefl 0)
      · rw [if_neg hm]; exact h

theorem laIter_chain (m : Mask) (start : Pt) (step radius : Int) (mode : SearchMode) :
    ∀ k, laChain (firstOff mode step) (laIter m start step radius mode k) := by
  intro k
  induction k with
  | zero =>
      exact ⟨getCoverage_nonneg m start radius,
        fun _ z hz => absurd hz (Finset.not_mem_empty z)⟩
  | succ k ih =>
      rw [laIter_succ]
      exact laStep_chain m radius step mode _ ih

theorem laStep_card (m : Mask) (radius step : Int) (mode : SearchMode) (st : LAState) :
    (laStep m radius step mode st).visited.card ≤ st.visited.card + 1 := by
  unfold laStep
  by_cases hst : st.stopped = true
  · rw [if_pos hst]; exact Nat.le_succ _
  · rw [if_neg hst]
    by_cases hm : st.maxValue ≤ (laSel m radius st.visited (candPts mode step st.maxPos)).1
    · rw [if_pos hm]; exact Finset.card_insert_le _ _
    · rw [if_neg hm]; exact Nat.le_succ _

theorem laIter_card (m : Mask) (start : Pt) (step radius : Int) (mode : SearchMode) :
    ∀ k, (laIter m start step radius mode k).visited.card ≤ k := by
  intro k
  induction k with
  | zero => simp [laIter, laInit]
  | succ k ih =>
      rw [laIter_succ]
      exact (laStep_card m radius step mode _).trans (Nat.succ_le_succ ih)

/-! ### Claim C2 -/

/-- Claim C2: for every starting point, mask, iteration bound, step size,
radius and search mode, the point returned by `lookAround` has coverage
greater than or equal to the coverage of the starting point. -/
theorem lookAround_coverage_monotone (start : Pt) (m : Mask) (maxIterations : Nat)
    (stepSize radius : Int) (mode : SearchMode) :
    getCoverage m start radius ≤
      getCoverage m (lookAround start m maxIterations stepSize radius mode) radius :=
  (laIter_good m start stepSize radius mode maxIterations).1.trans
    (laIter_good m start stepSize radius mode maxIterations).2

/-! ### Claim C3 -/

/-- Claim C3 (amended: for nonzero step size): within a single `lookAround`
call the visited set gains at most `maxIterations` entries (one per accepted
move, so at most `maxIterations` iterations move the point), and, provided the
step size is nonzero, no iteration ever accepts a move onto a position whose
key is already in the visited set. -/
theorem lookAround_iteration_bound_no_revisit (m : Mask) (start : Pt)
    (stepSize radius : Int) (mode : SearchMode) (maxIterations : Nat)
    (hstep : stepSize ≠ 0) :
    (laIter m start stepSize radius mode maxIterations).visited.card ≤ maxIterations ∧
    ∀ k : Nat,
      (laIter m start stepSize radius mode k).stopped = false →
      (laIter m start stepSize radius mode k).maxValue ≤
        (laSel m radius (laIter m start stepSize radius mode k).visited
          (candPts mode stepSize (laIter m start stepSize radius mode k).maxPos)).1 →
      keyOf (laSel m radius (laIter m start stepSize radius mode k).visited
          (candPts mode stepSize (laIter m start stepSize radius mode k).maxPos)).2
        ∉ (laIter m start stepSize radius mode k).visited := by
  refine ⟨laIter_card m start stepSize radius mode maxIterations, ?_⟩
  intro k _ hacc hmem
  rcases laSel_cases m radius (laIter m start stepSize radius mode k).visited
      (candPts mode stepSize (laIter m start stepSize radius mode k).maxPos) with hsel | hsel
  · have hchain := laIter_chain m start stepSize radius mode k
    have hsel1 : (laSel m radius (laIter m start stepSize radius mode k).visited
        (candPts mode stepSize (laIter m start stepSize radius mode k).maxPos)).1 = 0 := by
      rw [hsel]
    have hmv : (laIter m start stepSize radius mode k).maxValue = 0 :=
      le_antisymm (hsel1 ▸ hacc) hchain.1
    rw [hsel, candPts_headD] at hmem
    obtain ⟨j, hj⟩ := hchain.2 hmv.le _ hmem
    have hkey : (1 + (j : Int)) *
        (1000 * (firstOff mode stepSize).1 + (firstOff mode stepSize).2) = 0 := by
      simp only [keyOf] at hj
      linear_combination hj
    rcases mul_eq_zero.1 hkey with h0 | h0
    · omega
    · exact firstOff_key mode stepSize hstep h0
  · exact hsel.2 hmem

/-- Claim C3 counterexample: with step size 0 (on an all-zero mask, radius 1,
FREE_SEARCH), the iteration after the first one is still live, its move is
accepted, and the accepted target's key is already in the visited set — the
search moves the current point to a visited position. -/
theorem lookAround_c3_counterexample :
    (laIter (zeroMask 3) ⟨1, 1⟩ 0 1 SearchMode.FREE_SEARCH 1).stopped = false ∧
    (laIter (zeroMask 3) ⟨1, 1⟩ 0 1 SearchMode.FREE_SEARCH 1).maxValue ≤
      (laSel (zeroMask 3) 1 (laIter (zeroMask 3) ⟨1, 1⟩ 0 1 SearchMode.FREE_SEARCH 1).visited
        (candPts SearchMode.FREE_SEARCH 0
          (laIter (zeroMask 3) ⟨1, 1⟩ 0 1 SearchMode.FREE_SEARCH 1).maxPos)).1 ∧
    keyOf (laSel (zeroMask 3) 1 (laIter (zeroMask 3) ⟨1, 1⟩ 0 1 SearchMode.FREE_SEARCH 1).visited
        (candPts SearchMode.FREE_SEARCH 0
          (laIter (zeroMask 3) ⟨1, 1⟩ 0 1 SearchMode.FREE_SEARCH 1).maxPos)).2
      ∈ (laIter (zeroMask 3) ⟨1, 1⟩ 0 1 SearchMode.FREE_SEARCH 1).visited := by
  have hcov : ∀ p : Pt, getCoverage (zeroMask 3) p 1 = 0 := by
    intro p
    unfold getCoverage
    have h0 : discSum (zeroMask 3) p 1 = 0 := by
      unfold discSum zeroMask
      simp
    rw [h0]
    simp
  have hsel0 : laSel (zeroMask 3) 1 ∅ (candPts SearchMode.FREE_SEARCH 0 ⟨1, 1⟩) = (0, ⟨1, 1⟩) := by
    simp [laSel, laSelGo, candPts, offsets, hcov]
  have h1 : laIter (zeroMask 3) ⟨1, 1⟩ 0 1 SearchMode.FREE_SEARCH 1 =
      ⟨⟨1, 1⟩, 0, {1001}, false⟩ := by
    show laStep (zeroMask 3) 1 0 SearchMode.FREE_SEARCH (laInit (zeroMask 3) ⟨1, 1⟩ 1) =
      ⟨⟨1, 1⟩, 0, {1001}, false⟩
    unfold laStep laInit
    simp [hsel0, hcov, keyOf]
  have hsel1 : laSel (zeroMask 3) 1 {1001}
      (candPts SearchMode.FREE_SEARCH 0 ⟨1, 1⟩) = (0, ⟨1, 1⟩) := by
    simp [laSel, laSelGo, candPts, offsets, hcov]
  rw [h1]
  refine ⟨rfl, ?_, ?_⟩
  · show (0 : ℚ) ≤ (laSel (zeroMask 3) 1 {1001} (candPts SearchMode.FREE_SEARCH 0 ⟨1, 1⟩)).1
    rw [hsel1]
  · show keyOf (laSel (zeroMask 3) 1 {1001} (candPts SearchMode.FREE_SEARCH 0 ⟨1, 1⟩)).2
      ∈ ({1001} : Finset Int)
    rw [hsel1]
    decide

/-- Claim C3 witness: the amended theorem applied at a concrete instance. -/
theorem lookAround_c3_witness :
    (1 : Int) ≠ 0 ∧
    (laIter (zeroMask 3) ⟨1, 1⟩ 1 1 SearchMode.FREE_SEARCH 10).visited.card ≤ 10 :=
  ⟨by decide,
    (lookAround_iteration_bound_no_revisit (zeroMask 3) ⟨1, 1⟩ 1 1 SearchMode.FREE_SEARCH 10
      (by decide)).1⟩

/-! ### Claim C9 -/

/-- Claim C9 (amended): `getCoverage` is always nonnegative and returns 0 on
an all-zero mask; it is the disc sum divided by `radius² · 3.1415 · 255`, but
it is *not* bounded by 1 and does not equal 1 on an all-255 mask, because the
number of pixels of the rasterized disc is not `π · radius²` (see the
counterexample). -/
theorem getCoverage_range_spec :
    (∀ (m : Mask) (pos : Pt) (radius : Int), 0 ≤ getCoverage m pos radius) ∧
    (∀ (rows cols : Nat) (pos : Pt) (radius : Int),
      getCoverage ⟨rows, cols, fun _ _ => 0⟩ pos radius = 0) := by
  refine ⟨getCoverage_nonneg, ?_⟩
  intro rows cols pos radius
  unfold getCoverage
  have h0 : discSum ⟨rows, cols, fun _ _ => 0⟩ pos radius = 0 := by
    unfold discSum
    simp
  rw [h0]
  simp

/-- Claim C9 counterexample: on a 3×3 all-255 mask, the coverage at the
in-bounds centre `(1,1)` with radius 1 is `10000/6283 ≈ 1.59 > 1`: the
radius-1 disc holds 5 pixels while the denominator only accounts for
`3.1415 · 1²` of them, so the result lies outside `[0,1]` and is not 1. -/
theorem getCoverage_c9_counterexample :
    1 < getCoverage allOn3 ⟨1, 1⟩ 1 := by
  have h : discSum allOn3 ⟨1, 1⟩ 1 = 1275 := by decide
  unfold getCoverage
  rw [h]
  norm_num

/-! ### Claim C1 -/

/-- Claim C1 (amended): `getPredictedPosition` computes the linear and the
velocity-averaged extrapolations, evaluates coverage quality at both, and
prefers the velocity-averaged point exactly when its quality is strictly
higher; but the 0.2 quality gate is evaluated on the quality of the *linear*
extrapolation point (not on the preferred point's quality): when the linear
point's quality exceeds 0.2 the preferred point is returned, otherwise the
sentinel `(0,0)` is returned. -/
theorem getPredictedPosition_spec (s : Hand) (skinMask : Mask)
    (h1 : s.positionHistory s.positionIndex ≠ ⟨0, 0⟩)
    (h2 : s.positionHistory (getPreviousIndex s s.positionIndex) ≠ ⟨0, 0⟩)
    (h3 : s.positionHistory (getPreviousIndex s (getPreviousIndex s s.positionIndex)) ≠ ⟨0, 0⟩) :
    ((1 / 5 : ℚ) < getPointQuality s skinMask (predLinear s) 0 →
      getPredictedPosition s skinMask =
        (if getPointQuality s skinMask (predLinear s) 0
            < getPointQuality s skinMask (predVelocity s) 0
         then predVelocity s else predLinear s)) ∧
    (¬ (1 / 5 : ℚ) < getPointQuality s skinMask (predLinear s) 0 →
      getPredictedPosition s skinMask = ⟨0, 0⟩) := by
  unfold getPredictedPosition
  constructor
  · intro h
    rw [if_pos h]
  · intro h
    rw [if_neg h]

/-- Claim C1 counterexample: a concrete state and mask where the last three
history points are initialized, the velocity-averaged point has the strictly
higher quality and its quality exceeds 0.2 (so the claim's preferred point is
the velocity point and should be returned), yet `getPredictedPosition`
returns the sentinel `(0,0)`, because the gate tests the linear point's
quality (which is 0 here). -/
theorem getPredictedPosition_c1_counterexample :
    c1Hand.positionHistory c1Hand.positionIndex ≠ ⟨0, 0⟩ ∧
    c1Hand.positionHistory (getPreviousIndex c1Hand c1Hand.positionIndex) ≠ ⟨0, 0⟩ ∧
    c1Hand.positionHistory
      (getPreviousIndex c1Hand (getPreviousIndex c1Hand c1Hand.positionIndex)) ≠ ⟨0, 0⟩ ∧
    getPointQuality c1Hand c1Mask (predLinear c1Hand) 0
      < getPointQuality c1Hand c1Mask (predVelocity c1Hand) 0 ∧
    (1 / 5 : ℚ) < getPointQuality c1Hand c1Mask (predVelocity c1Hand) 0 ∧
    predVelocity c1Hand ≠ ⟨0, 0⟩ ∧
    getPredictedPosition c1Hand c1Mask = ⟨0, 0⟩ := by
  have hrad : (if (0 : Int) = 0 then truncQ (5 * c1Hand.cmInPixels) else 0) = 1 := by
    rw [if_pos rfl]
    norm_num [truncQ, c1Hand]
  have hlin : getPointQuality c1Hand c1Mask (predLinear c1Hand) 0 = 0 := by
    unfold getPointQuality
    rw [hrad]
    have hd : discSum c1Mask (predLinear c1Hand) 1 = 0 := by decide
    unfold getCoverage
    rw [hd]
    simp
  have hvel : (1 / 5 : ℚ) < getPointQuality c1Hand c1Mask (predVelocity c1Hand) 0 := by
    unfold getPointQuality
    rw [hrad]
    have hd : discSum c1Mask (predVelocity c1Hand) 1 = 765 := by decide
    unfold getCoverage
    rw [hd]
    norm_num
  refine ⟨by decide, by decide, by decide, ?_, hvel, by decide, ?_⟩
  · rw [hlin]
    linarith
  · unfold getPredictedPosition
    rw [if_neg (by rw [hlin]; norm_num)]

/-- Claim C1 witness: the amended theorem applied at a concrete instance (an
all-255 mask, where the linear point's quality passes the gate). -/
theorem getPredictedPosition_c1_witness :
    (1 / 5 : ℚ) < getPointQuality c1Hand allOn13 (predLinear c1Hand) 0 ∧
    getPredictedPosition c1Hand allOn13 =
      (if getPointQuality c1Hand allOn13 (predLinear c1Hand) 0
          < getPointQuality c1Hand allOn13 (predVelocity c1Hand) 0
       then predVelocity c1Hand else predLinear c1Hand) := by
  have hrad : (if (0 : Int) = 0 then truncQ (5 * c1Hand.cmInPixels) else 0) = 1 := by
    rw [if_pos rfl]
    norm_num [truncQ, c1Hand]
  have hq : (1 / 5 : ℚ) < getPointQuality c1Hand allOn13 (predLinear c1Hand) 0 := by
    unfold getPointQuality
    rw [hrad]
    have hd : discSum allOn13 (predLinear c1Hand) 1 = 1275 := by decide
    unfold getCoverage
    rw [hd]
    norm_num
  exact ⟨hq,
    (getPredictedPosition_spec c1Hand allOn13 (by decide) (by decide) (by decide)).1 hq⟩

/-! ### Claim C4 -/

/-- Claim C4: `improveByAreaSearch` returns true, adopting as `position` the
result of a FREE_SEARCH `lookAround` (radius `8.5 * cmInPixels` px, at most 10
iterations, step 4) from the reference point, if and only if (the displacement
between the reference point and the current position exceeds
`2 * maxVelocity * cmInPixels / fps`, or no blob estimate was accepted this
frame) and the reference point's quality exceeds 0.2; otherwise it returns
false and leaves the state unchanged. -/
theorem improveByAreaSearch_spec (s : Hand) (skinMask : Mask) (pos : Pt)
    (hmd : 0 ≤ 2 * s.maxVelocity * s.cmInPixels / s.fps) :
    ((improveByAreaSearch s skinMask pos).2 = true ↔
      (((2 * s.maxVelocity * s.cmInPixels / s.fps) ^ 2 < ((distSq pos s.position : Int) : ℚ)
          ∨ s.estimateUpdated = false)
        ∧ (1 / 5 : ℚ) < getPointQuality s skinMask pos 0)) ∧
    ((improveByAreaSearch s skinMask pos).2 = true →
      (improveByAreaSearch s skinMask pos).1 =
        { s with position :=
            (lookAround pos skinMask 10 4 (truncQ ((85 / 10 : ℚ) * s.cmInPixels))
              SearchMode.FREE_SEARCH) }) ∧
    ((improveByAreaSearch s skinMask pos).2 = false →
      (improveByAreaSearch s skinMask pos).1 = s) := by
  have hgate : (distGtQ (distSq pos s.position) (2 * s.maxVelocity * s.cmInPixels / s.fps)
      || !s.estimateUpdated) = true ↔
      ((2 * s.maxVelocity * s.cmInPixels / s.fps) ^ 2 < ((distSq pos s.position : Int) : ℚ)
        ∨ s.estimateUpdated = false) := by
    unfold distGtQ
    rw [Bool.or_eq_true, Bool.or_eq_true, Bool.not_eq_true']
    simp only [decide_eq_true_eq]
    constructor
    · rintro ((h | h) | h)
      · exact absurd h (not_lt.2 hmd)
      · exact Or.inl (by rw [sq]; exact h)
      · exact Or.inr h
    · rintro (h | h)
      · exact Or.inl (Or.inr (by rw [← sq]; exact h))
      · exact Or.inr h
  unfold improveByAreaSearch
  by_cases hb : (distGtQ (distSq pos s.position) (2 * s.maxVelocity * s.cmInPixels / s.fps)
      || !s.estimateUpdated) = true
  · rw [if_pos hb]
    by_cases hq : (1 / 5 : ℚ) < getPointQuality s skinMask pos 0
    · rw [if_pos hq]
      exact ⟨⟨fun _ => ⟨hgate.1 hb, hq⟩, fun _ => rfl⟩, fun _ => rfl,
        fun hc => absurd hc (by simp)⟩
    · rw [if_neg hq]
      exact ⟨⟨fun hc => absurd hc (by simp), fun hr => absurd hr.2 hq⟩,
        fun hc => absurd hc (by simp), fun _ => rfl⟩
  · rw [if_neg hb]
    exact ⟨⟨fun hc => absurd hc (by simp), fun hr => absurd (hgate.2 hr.1) hb⟩,
      fun hc => absurd hc (by simp), fun _ => rfl⟩

/-- Claim C4 witness: the theorem applied at a concrete instance with a
nonnegative velocity bound. -/
theorem improveByAreaSearch_c4_witness :
    0 ≤ 2 * c1Hand.maxVelocity * c1Hand.cmInPixels / c1Hand.fps ∧
    ((improveByAreaSearch c1Hand allOn13 ⟨6, 6⟩).2 = true ↔
      (((2 * c1Hand.maxVelocity * c1Hand.cmInPixels / c1Hand.fps) ^ 2
          < ((distSq ⟨6, 6⟩ c1Hand.position : Int) : ℚ)
          ∨ c1Hand.estimateUpdated = false)
        ∧ (1 / 5 : ℚ) < getPointQuality c1Hand allOn13 ⟨6, 6⟩ 0)) :=
  ⟨by norm_num [c1Hand],
    (improveByAreaSearch_spec c1Hand allOn13 ⟨6, 6⟩ (by norm_num [c1Hand])).1⟩

/-! ### Claim C5 -/

/-- Claim C5 (amended): when `setEstimate` is called with condition ONLY_HEAD
and the stored `position.y` is 0 or above `faceCoverageThreshold`, the
estimate is rejected: `estimateUpdated`, `position`, `blobEstimate`,
`blobHistory` and `blobIndex` are all left unchanged (so `estimateUpdated`
remains false if it was false).  However the call is not entirely free of
state mutation: `ignoreIntersect` ends up set exactly when it was already set
or the blob is HIGH or the force flag was passed. -/
theorem setEstimate_reject_spec (s : Hand) (estimate : Pt) (blob : BlobInformation)
    (ignoreIntersection : Bool)
    (hc : s.position.y = 0 ∨ s.faceCoverageThreshold < s.position.y) :
    (setEstimate s estimate blob ignoreIntersection Condition.ONLY_HEAD).estimateUpdated
        = s.estimateUpdated ∧
    (setEstimate s estimate blob ignoreIntersection Condition.ONLY_HEAD).position
        = s.position ∧
    (setEstimate s estimate blob ignoreIntersection Condition.ONLY_HEAD).blobEstimate
        = s.blobEstimate ∧
    (setEstimate s estimate blob ignoreIntersection Condition.ONLY_HEAD).blobHistory
        = s.blobHistory ∧
    (setEstimate s estimate blob ignoreIntersection Condition.ONLY_HEAD).blobIndex
        = s.blobIndex ∧
    ((setEstimate s estimate blob ignoreIntersection Condition.ONLY_HEAD).ignoreIntersect = true
      ↔ (s.ignoreIntersect = true ∨ blob.type = BlobType.HIGH ∨ ignoreIntersection = true)) := by
  unfold setEstimate
  by_cases h1 : blob.type = BlobType.HIGH ∨ ignoreIntersection = true
  · rw [if_pos h1, if_pos ⟨rfl, hc⟩]
    exact ⟨rfl, rfl, rfl, rfl, rfl, ⟨fun _ => Or.inr h1, fun _ => rfl⟩⟩
  · rw [if_neg h1, if_pos ⟨rfl, hc⟩]
    push_neg at h1
    refine ⟨rfl, rfl, rfl, rfl, rfl, ?_⟩
    constructor
    · exact fun h => Or.inl h
    · rintro (h | h | h)
      · exact h
      · exact absurd h h1.1
      · exact absurd h h1.2

/-- Claim C5 counterexample: with a HIGH blob, condition ONLY_HEAD and stored
`position.y = 0`, the estimate is rejected (`estimateUpdated` stays false,
`position` unchanged), yet the call does mutate state: `ignoreIntersect`
flips from false to true. -/
theorem setEstimate_c5_counterexample :
    c1Hand.ignoreIntersect = false ∧
    c1Hand.position.y = 0 ∧
    (setEstimate c1Hand ⟨70, 80⟩ blob5 false Condition.ONLY_HEAD).estimateUpdated = false ∧
    (setEstimate c1Hand ⟨70, 80⟩ blob5 false Condition.ONLY_HEAD).position = c1Hand.position ∧
    (setEstimate c1Hand ⟨70, 80⟩ blob5 false Condition.ONLY_HEAD).ignoreIntersect = true := by
  refine ⟨rfl, rfl, ?_, ?_, ?_⟩ <;> decide

/-- Claim C5 witness: the amended theorem applied at a concrete instance. -/
theorem setEstimate_c5_witness :
    (c1Hand.position.y = 0 ∨ c1Hand.faceCoverageThreshold < c1Hand.position.y) ∧
    ((setEstimate c1Hand ⟨70, 80⟩ blob5 false Condition.ONLY_HEAD).estimateUpdated
        = c1Hand.estimateUpdated ∧
      (setEstimate c1Hand ⟨70, 80⟩ blob5 false Condition.ONLY_HEAD).position
        = c1Hand.position ∧
      (setEstimate c1Hand ⟨70, 80⟩ blob5 false Condition.ONLY_HEAD).blobEstimate
        = c1Hand.blobEstimate ∧
      (setEstimate c1Hand ⟨70, 80⟩ blob5 false Condition.ONLY_HEAD).blobHistory
        = c1Hand.blobHistory ∧
      (setEstimate c1Hand ⟨70, 80⟩ blob5 false Condition.ONLY_HEAD).blobIndex
        = c1Hand.blobIndex ∧
      ((setEstimate c1Hand ⟨70, 80⟩ blob5 false Condition.ONLY_HEAD).ignoreIntersect = true
        ↔ (c1Hand.ignoreIntersect = true ∨ blob5.type = BlobType.HIGH ∨ false = true))) :=
  ⟨Or.inl rfl, setEstimate_reject_spec c1Hand ⟨70, 80⟩ blob5 false (Or.inl rfl)⟩

/-! ### Claim C6 -/

/-- Claim C6: `improveUsingHistory` leaves the state unchanged when any of
the last 5 history slots is the sentinel `(0,0)`; otherwise it blends
`position` toward the mean of the last 5 history points by exactly one of
three tiers of motion coverage (95/5 below 0.001, 80/20 below 0.05, 50/50
below 0.2) and keeps `position` unchanged at motion coverage 0.2 or above. -/
theorem improveUsingHistory_spec (s : Hand) (skinMask movementMap : Mask) :
    ((∃ p ∈ lastPts s 5, p.x = 0 ∧ p.y = 0) →
      improveUsingHistory s skinMask movementMap = s) ∧
    ((∀ p ∈ lastPts s 5, ¬(p.x = 0 ∧ p.y = 0)) →
      ((getPointQuality s movementMap s.position 30 < (1 / 1000 : ℚ) →
        improveUsingHistory s skinMask movementMap =
          { s with position :=
              ⟨truncQ ((95 / 100 : ℚ) * ((((lastPts s 5).map fun p => p.x).sum : Int) / 5 : ℚ)
                  + (5 / 100 : ℚ) * (s.position.x : ℚ)),
               truncQ ((95 / 100 : ℚ) * ((((lastPts s 5).map fun p => p.y).sum : Int) / 5 : ℚ)
                  + (5 / 100 : ℚ) * (s.position.y : ℚ))⟩ }) ∧
      (¬ getPointQuality s movementMap s.position 30 < (1 / 1000 : ℚ) →
        getPointQuality s movementMap s.position 30 < (5 / 100 : ℚ) →
        improveUsingHistory s skinMask movementMap =
          { s with position :=
              ⟨truncQ ((8 / 10 : ℚ) * ((((lastPts s 5).map fun p => p.x).sum : Int) / 5 : ℚ)
                  + (2 / 10 : ℚ) * (s.position.x : ℚ)),
               truncQ ((8 / 10 : ℚ) * ((((lastPts s 5).map fun p => p.y).sum : Int) / 5 : ℚ)
                  + (2 / 10 : ℚ) * (s.position.y : ℚ))⟩ }) ∧
      (¬ getPointQuality s movementMap s.position 30 < (5 / 100 : ℚ) →
        getPointQuality s movementMap s.position 30 < (2 / 10 : ℚ) →
        improveUsingHistory s skinMask movementMap =
          { s with position :=
              ⟨truncQ ((5 / 10 : ℚ) * ((((lastPts s 5).map fun p => p.x).sum : Int) / 5 : ℚ)
                  + (5 / 10 : ℚ) * (s.position.x : ℚ)),
               truncQ ((5 / 10 : ℚ) * ((((lastPts s 5).map fun p => p.y).sum : Int) / 5 : ℚ)
                  + (5 / 10 : ℚ) * (s.position.y : ℚ))⟩ }) ∧
      (¬ getPointQuality s movementMap s.position 30 < (2 / 10 : ℚ) →
        improveUsingHistory s skinMask movementMap = s))) := by
  have hiff : ((lastPts s 5).any fun p => p.x == 0 && p.y == 0) = true ↔
      ∃ p ∈ lastPts s 5, p.x = 0 ∧ p.y = 0 := by
    simp [List.any_eq_true]
  constructor
  · intro h
    unfold improveUsingHistory
    rw [if_pos (hiff.2 h)]
  · intro hall
    have hno : ¬ ((lastPts s 5).any fun p => p.x == 0 && p.y == 0) = true := by
      intro h
      obtain ⟨p, hp, hpp⟩ := hiff.1 h
      exact hall p hp hpp
    refine ⟨?_, ?_, ?_, ?_⟩
    · intro hmc
      unfold improveUsingHistory
      rw [if_neg hno, if_pos hmc]
    · intro hn1 hmc
      unfold improveUsingHistory
      rw [if_neg hno, if_neg hn1, if_pos hmc]
    · intro hn2 hmc
      unfold improveUsingHistory
      rw [if_neg hno, if_neg (fun hlt => hn2 (hlt.trans (by norm_num))), if_neg hn2,
        if_pos hmc]
    · intro hn3
      unfold improveUsingHistory
      rw [if_neg hno, if_neg (fun hlt => hn3 (hlt.trans (by norm_num))),
        if_neg (fun hlt => hn3 (hlt.trans (by norm_num))), if_neg hn3]

/-- Claim C6 witness: the theorem applied at the spec's scenario — hand at
`(100,100)`, last 5 history points all `(100,100)`, zero motion coverage —
and the smoothed position is exactly `(100,100)`. -/
theorem improveUsingHistory_c6_witness :
    (∀ p ∈ lastPts w6Hand 5, ¬(p.x = 0 ∧ p.y = 0)) ∧
    getPointQuality w6Hand (zeroMask 5) w6Hand.position 30 < (1 / 1000 : ℚ) ∧
    (improveUsingHistory w6Hand (zeroMask 5) (zeroMask 5)).position = ⟨100, 100⟩ := by
  have hall : ∀ p ∈ lastPts w6Hand 5, ¬(p.x = 0 ∧ p.y = 0) := by decide
  have hmc : getPointQuality w6Hand (zeroMask 5) w6Hand.position 30 < (1 / 1000 : ℚ) := by
    unfold getPointQuality
    rw [if_neg (by decide)]
    have h0 : discSum (zeroMask 5) w6Hand.position 30 = 0 := by decide
    unfold getCoverage
    rw [h0]
    norm_num
  have h := ((improveUsingHistory_spec w6Hand (zeroMask 5) (zeroMask 5)).2 hall).1 hmc
  refine ⟨hall, hmc, ?_⟩
  rw [h]
  have hsx : (((lastPts w6Hand 5).map fun p => p.x).sum : Int) = 500 := by decide
  have hsy : (((lastPts w6Hand 5).map fun p => p.y).sum : Int) = 500 := by decide
  show (⟨truncQ ((95 / 100 : ℚ) * ((((lastPts w6Hand 5).map fun p => p.x).sum : Int) / 5 : ℚ)
          + (5 / 100 : ℚ) * (w6Hand.position.x : ℚ)),
        truncQ ((95 / 100 : ℚ) * ((((lastPts w6Hand 5).map fun p => p.y).sum : Int) / 5 : ℚ)
          + (5 / 100 : ℚ) * (w6Hand.position.y : ℚ))⟩ : Pt) = ⟨100, 100⟩
  rw [hsx, hsy]
  have hps : w6Hand.position = ⟨100, 100⟩ := rfl
  rw [hps]
  norm_num [truncQ]

/-! ### Claim C7 -/

/-- Claim C7 (amended): with both positions non-sentinel, the call ends with
`intersecting` set exactly when the *clamped* distance `max 1 (√dSq)` is below
the *truncated* pixel threshold `int(8 * cmInPixels)` and `ignoreIntersect`
was not set this frame; in that near case the biased 20-iteration search is
run (SEARCH_LEFT for the left hand, SEARCH_RIGHT for the right hand), in the
band up to twice the truncated threshold the gentler 5-iteration biased search
is run without setting `intersecting`, and beyond it the position is left
unchanged. -/
theorem handleIntersection_spec (s : Hand) (otherHandPosition : Pt) (skinMask : Mask)
    (hp : s.position.x ≠ 0 ∧ s.position.y ≠ 0
      ∧ otherHandPosition.x ≠ 0 ∧ otherHandPosition.y ≠ 0) :
    (handleIntersection s otherHandPosition skinMask).intersecting =
      (clampDistLt (distSq s.position otherHandPosition) (truncQ (8 * s.cmInPixels))
        && !s.ignoreIntersect) ∧
    (handleIntersection s otherHandPosition skinMask).ignoreIntersect = false ∧
    (clampDistLt (distSq s.position otherHandPosition) (truncQ (8 * s.cmInPixels)) = true →
      (handleIntersection s otherHandPosition skinMask).position =
        lookAround s.position skinMask 20 3 (truncQ (5 * s.cmInPixels))
          (if s.leftHand then SearchMode.SEARCH_LEFT else SearchMode.SEARCH_RIGHT)) ∧
    (clampDistLt (distSq s.position otherHandPosition) (truncQ (8 * s.cmInPixels)) = false →
      clampDistLt (distSq s.position otherHandPosition) (2 * truncQ (8 * s.cmInPixels)) = true →
      (handleIntersection s otherHandPosition skinMask).position =
        lookAround s.position skinMask 5 3 (truncQ (5 * s.cmInPixels))
          (if s.leftHand then SearchMode.SEARCH_LEFT else SearchMode.SEARCH_RIGHT)) ∧
    (clampDistLt (distSq s.position otherHandPosition) (truncQ (8 * s.cmInPixels)) = false →
      clampDistLt (distSq s.position otherHandPosition) (2 * truncQ (8 * s.cmInPixels)) = false →
      (handleIntersection s otherHandPosition skinMask).position = s.position) := by
  have h1 := hp.1
  have h2 := hp.2.1
  have h3 := hp.2.2.1
  have h4 := hp.2.2.2
  cases hc1 : clampDistLt (distSq s.position otherHandPosition) (truncQ (8 * s.cmInPixels)) with
  | true =>
      cases hig : s.ignoreIntersect with
      | false =>
          refine ⟨?_, ?_, fun _ => ?_, fun hf _ => Bool.noConfusion hf,
            fun hf _ => Bool.noConfusion hf⟩ <;>
            simp [handleIntersection, improveByCoverage, h1, h2, h3, h4, hc1, hig]
      | true =>
          refine ⟨?_, ?_, fun _ => ?_, fun hf _ => Bool.noConfusion hf,
            fun hf _ => Bool.noConfusion hf⟩ <;>
            simp [handleIntersection, improveByCoverage, h1, h2, h3, h4, hc1, hig]
  | false =>
      cases hc2 : clampDistLt (distSq s.position otherHandPosition)
          (2 * truncQ (8 * s.cmInPixels)) with
      | true =>
          cases hig : s.ignoreIntersect with
          | false =>
              refine ⟨?_, ?_, fun hf => Bool.noConfusion hf,
                fun _ _ => ?_, fun _ hf => Bool.noConfusion hf⟩ <;>
                simp [handleIntersection, improveByCoverage, h1, h2, h3, h4, hc1, hc2, hig]
          | true =>
              refine ⟨?_, ?_, fun hf => Bool.noConfusion hf,
                fun _ _ => ?_, fun _ hf => Bool.noConfusion hf⟩ <;>
                simp [handleIntersection, improveByCoverage, h1, h2, h3, h4, hc1, hc2, hig]
      | false =>
          cases hig : s.ignoreIntersect with
          | false =>
              refine ⟨?_, ?_, fun hf => Bool.noConfusion hf,
                fun _ hf => Bool.noConfusion hf, fun _ _ => ?_⟩ <;>
                simp [handleIntersection, improveByCoverage, h1, h2, h3, h4, hc1, hc2, hig]
          | true =>
              refine ⟨?_, ?_, fun hf => Bool.noConfusion hf,
                fun _ hf => Bool.noConfusion hf, fun _ _ => ?_⟩ <;>
                simp [handleIntersection, improveByCoverage, h1, h2, h3, h4, hc1, hc2, hig]

/-- Claim C7 counterexample: with `cmInPixels = 11/10` the positions `(10,10)`
and `(13,18)` are at Euclidean distance `√73 ≈ 8.544`, below the 8 cm pixel
threshold `8.8`, and `ignoreIntersect` is not set — yet `handleIntersection`
does not set `intersecting`, because the source compares against the
truncated integer threshold `int(8.8) = 8`. -/
theorem handleIntersection_c7_counterexample :
    w7Hand.ignoreIntersect = false ∧
    ((distSq w7Hand.position w7Other : Int) : ℚ) < (8 * w7Hand.cmInPixels) ^ 2 ∧
    (handleIntersection w7Hand w7Other (zeroMask 3)).intersecting = false := by
  have hd : distSq w7Hand.position w7Other = 73 := by decide
  have hmin : truncQ (8 * w7Hand.cmInPixels) = 8 := by
    norm_num [truncQ, w7Hand, c1Hand]
  have hc1 : clampDistLt (distSq w7Hand.position w7Other) (truncQ (8 * w7Hand.cmInPixels))
      = false := by
    rw [hd, hmin]
    decide
  have hc2 : clampDistLt (distSq w7Hand.position w7Other) (2 * truncQ (8 * w7Hand.cmInPixels))
      = true := by
    rw [hd, hmin]
    decide
  refine ⟨rfl, ?_, ?_⟩
  · norm_num [distSq, w7Hand, w7Other, c1Hand]
  · simp [handleIntersection, improveByCoverage, hc1, hc2,
      show w7Hand.position.x ≠ 0 from by decide, show w7Hand.position.y ≠ 0 from by decide,
      show w7Other.x ≠ 0 from by decide, show w7Other.y ≠ 0 from by decide,
      show w7Hand.ignoreIntersect = false from rfl]

/-- Claim C7 witness: the amended theorem applied at the same concrete
instance (both positions non-sentinel). -/
theorem handleIntersection_c7_witness :
    (w7Hand.position.x ≠ 0 ∧ w7Hand.position.y ≠ 0
      ∧ w7Other.x ≠ 0 ∧ w7Other.y ≠ 0) ∧
    (handleIntersection w7Hand w7Other (zeroMask 3)).intersecting =
      (clampDistLt (distSq w7Hand.position w7Other) (truncQ (8 * w7Hand.cmInPixels))
        && !w7Hand.ignoreIntersect) ∧
    (handleIntersection w7Hand w7Other (zeroMask 3)).ignoreIntersect = false :=
  ⟨by decide,
    (handleIntersection_spec w7Hand w7Other (zeroMask 3) (by decide)).1,
    (handleIntersection_spec w7Hand w7Other (zeroMask 3) (by decide)).2.1⟩

/-! ### Claim C8 -/

/-- Claim C8 (amended): `handleIntersection` clears `ignoreIntersect` only
when both positions are non-sentinel; when either position is the sentinel it
returns with the whole state — `ignoreIntersect` included — unchanged. -/
theorem handleIntersection_ignoreIntersect_spec (s : Hand) (otherHandPosition : Pt)
    (skinMask : Mask) :
    ((s.position.x ≠ 0 ∧ s.position.y ≠ 0
        ∧ otherHandPosition.x ≠ 0 ∧ otherHandPosition.y ≠ 0) →
      (handleIntersection s otherHandPosition skinMask).ignoreIntersect = false) ∧
    (¬(s.position.x ≠ 0 ∧ s.position.y ≠ 0
        ∧ otherHandPosition.x ≠ 0 ∧ otherHandPosition.y ≠ 0) →
      handleIntersection s otherHandPosition skinMask = s) := by
  unfold handleIntersection
  constructor
  · intro h
    rw [if_pos h]
  · intro h
    rw [if_neg h]

/-- Claim C8 counterexample: when this hand's position is the sentinel
`(0,0)` and `ignoreIntersect` was set, `handleIntersection` returns with
`ignoreIntersect` still true — the flag is not always cleared. -/
theorem handleIntersection_c8_counterexample :
    c8Hand.ignoreIntersect = true ∧
    (handleIntersection c8Hand ⟨5, 5⟩ (zeroMask 3)).ignoreIntersect = true := by
  exact ⟨rfl, by decide⟩

/-- Claim C8 witness: the amended theorem applied at a concrete instance with
a sentinel position. -/
theorem handleIntersection_c8_witness :
    ¬(c8Hand.position.x ≠ 0 ∧ c8Hand.position.y ≠ 0
        ∧ (⟨5, 5⟩ : Pt).x ≠ 0 ∧ (⟨5, 5⟩ : Pt).y ≠ 0) ∧
    handleIntersection c8Hand ⟨5, 5⟩ (zeroMask 3) = c8Hand :=
  ⟨by decide,
    (handleIntersection_ignoreIntersect_spec c8Hand ⟨5, 5⟩ (zeroMask 3)).2 (by decide)⟩

/-! ### Claim C10 -/

theorem improveByAreaSearch_preserves (s : Hand) (m : Mask) (p : Pt) :
    (improveByAreaSearch s m p).1.positionHistory = s.positionHistory ∧
    (improveByAreaSearch s m p).1.positionIndex = s.positionIndex ∧
    (improveByAreaSearch s m p).1.estimateUpdated = s.estimateUpdated := by
  unfold improveByAreaSearch
  split_ifs <;> exact ⟨rfl, rfl, rfl⟩

theorem solveEstimate_preserves (s : Hand) :
    (solveEstimate s).positionHistory = s.positionHistory ∧
    (solveEstimate s).positionIndex = s.positionIndex ∧
    (solveEstimate s).estimateUpdated = s.estimateUpdated := by
  unfold solveEstimate
  split_ifs <;> exact ⟨rfl, rfl, rfl⟩

theorem solveRecovery_preserves (s : Hand) (m : Mask) :
    (solveRecovery s m).positionHistory = s.positionHistory ∧
    (solveRecovery s m).positionIndex = s.positionIndex := by
  have e1 := solveEstimate_preserves s
  simp only [solveRecovery]
  split_ifs with hc hr hpred
  · have e2 := improveByAreaSearch_preserves (solveEstimate s) m
      ((solveEstimate s).positionHistory (solveEstimate s).positionIndex)
    exact ⟨e2.1.trans e1.1, e2.2.1.trans e1.2.1⟩
  · have e2 := improveByAreaSearch_preserves (solveEstimate s) m
      ((solveEstimate s).positionHistory (solveEstimate s).positionIndex)
    have e3 := improveByAreaSearch_preserves
      (improveByAreaSearch (solveEstimate s) m
        ((solveEstimate s).positionHistory (solveEstimate s).positionIndex)).1 m
      (getPredictedPosition
        (improveByAreaSearch (solveEstimate s) m
          ((solveEstimate s).positionHistory (solveEstimate s).positionIndex)).1 m)
    exact ⟨e3.1.trans (e2.1.trans e1.1), e3.2.1.trans (e2.2.1.trans e1.2.1)⟩
  · have e2 := improveByAreaSearch_preserves (solveEstimate s) m
      ((solveEstimate s).positionHistory (solveEstimate s).positionIndex)
    exact ⟨e2.1.trans e1.1, e2.2.1.trans e1.2.1⟩
  · exact ⟨e1.1, e1.2.1⟩

/-- Claim C10: whenever the position after the estimate-fusion and recovery
stages has a zero x- or y-coordinate, `solve` skips the refinement, smoothing
and history stages entirely: `positionHistory` and `positionIndex` are left
exactly as they were before the call, and `estimateUpdated` is false when
`solve` returns. -/
theorem solve_uninitialized_spec (s : Hand) (skinMask : Mask)
    (blobs : List BlobInformation) (movementMap : Mask)
    (h : (solveRecovery s skinMask).position.x = 0 ∨
      (solveRecovery s skinMask).position.y = 0) :
    (solve s skinMask blobs movementMap).positionHistory = s.positionHistory ∧
    (solve s skinMask blobs movementMap).positionIndex = s.positionIndex ∧
    (solve s skinMask blobs movementMap).estimateUpdated = false := by
  simp only [solve]
  have hcond : ¬((solveRecovery s skinMask).position.x ≠ 0 ∧
      (solveRecovery s skinMask).position.y ≠ 0) := by
    rcases h with h | h
    · exact fun hcc => hcc.1 h
    · exact fun hcc => hcc.2 h
  rw [if_neg hcond]
  have e := solveRecovery_preserves s skinMask
  exact ⟨e.1, e.2, trivial⟩

/-- Claim C10 witness: the theorem applied at a concrete state whose position
x-coordinate is zero (but y is not), with an all-sentinel history: the
history, its index, and the reset `estimateUpdated` flag are untouched. -/
theorem solve_c10_witness :
    ((solveRecovery c10Hand (zeroMask 3)).position.x = 0 ∨
      (solveRecovery c10Hand (zeroMask 3)).position.y = 0) ∧
    ((solve c10Hand (zeroMask 3) [] (zeroMask 3)).positionHistory = c10Hand.positionHistory ∧
      (solve c10Hand (zeroMask 3) [] (zeroMask 3)).positionIndex = c10Hand.positionIndex ∧
      (solve c10Hand (zeroMask 3) [] (zeroMask 3)).estimateUpdated = false) :=
  ⟨Or.inl (by decide),
    solve_uninitialized_spec c10Hand (zeroMask 3) [] (zeroMask 3) (Or.inl (by decide))⟩

end Mercury
